import Mathlib

/-!
# AuraContract: the grid-monitoring agent (`ai_agent.js`)

A shallow embedding of `checkGrid` and `main`.  The agent talks to three
outside parties (the carbon-intensity HTTP API, the token contract and the
bounty contract); what they answer during one cycle is an explicit input
(`Answers`), and what the agent does is an explicit output: the ordered list
of console lines and external calls (`Event`) together with the way the
promise of `checkGrid` settles.

Numbers.  A JavaScript Number is a double: NaN, an infinity, or a finite
dyadic rational.  `carbon > 400` is an exact comparison, so a reading is
modelled as NaN, an infinity or any rational (`JSNumber`); every double is
one of these.  `Date.now()` is an integer number of milliseconds of absolute
value at most 8.64e15, for which `Math.floor(t / 1000)` computed on doubles
is the exact floor of the quotient (the quotient is below 2^43, where the
rounding error of the division is at most 1/2048, while a quotient that is
not an integer lies at least 1/1000 away from the nearest integer).
-/

namespace AuraAgent

/-! ## JavaScript values -/

/-- A JavaScript Number: NaN, minus infinity, a finite value, plus infinity. -/
inductive JSNumber where
  | nan
  | negInf
  | fin (q : ℚ)
  | posInf
  deriving DecidableEq

/-- The relation `a < b` on Numbers: false as soon as one side is NaN. -/
def JSNumber.lt : JSNumber → JSNumber → Bool
  | .nan, _ => false
  | _, .nan => false
  | _, .negInf => false
  | .negInf, _ => true
  | .posInf, _ => false
  | .fin _, .posInf => true
  | .fin a, .fin b => decide (a < b)

/-- The relation `a <= b` on Numbers: false as soon as one side is NaN. -/
def JSNumber.le : JSNumber → JSNumber → Bool
  | .nan, _ => false
  | _, .nan => false
  | .negInf, _ => true
  | _, .posInf => true
  | _, .negInf => false
  | .posInf, _ => false
  | .fin a, .fin b => decide (a ≤ b)

/-- What the property `carbonIntensity` of the response body can evaluate to:
`undefined` (also the value of a property that is missing), `null`, or a
Number.  Strings, booleans and nested objects are outside the model. -/
inductive FieldValue where
  | undefined
  | null
  | number (n : JSNumber)
  deriving DecidableEq

/-- ToNumber, as the relational operator applies it to its operands. -/
def toNumber : FieldValue → JSNumber
  | .undefined => .nan
  | .null => .fin 0
  | .number n => n

/-- The test `carbon > 400` of line 25: evaluated as `400 < ToNumber(carbon)`. -/
def exceedsThreshold (carbon : FieldValue) : Bool :=
  JSNumber.lt (.fin 400) (toNumber carbon)

/-- The value of `response.data`: `null`/`undefined`, or a value with
properties (the parsed JSON object, listed with distinct keys). -/
inductive ResponseData where
  | nullish
  | object (fields : List (String × FieldValue))
  deriving DecidableEq

/-- What a `throw` or a rejected promise carries. -/
inductive Thrown where
  | undefined
  | null
  | error (message : String)
  | other
  deriving DecidableEq

/-- The expression `response.data.carbonIntensity` of line 22: a TypeError on a
nullish body, `undefined` for a missing property. -/
def carbonIntensityOf : ResponseData → Except Thrown FieldValue
  | .nullish => .error (.error "TypeError: cannot read properties of null (reading carbonIntensity)")
  | .object fields => .ok ((fields.lookup "carbonIntensity").getD .undefined)

/-- The expression `err.message` of line 49: a TypeError when `err` is
`undefined` or `null`, the message of an Error object, `undefined` (here
`none`) for any other value. -/
def messageOf : Thrown → Except Thrown (Option String)
  | .undefined => .error (.error "TypeError: cannot read properties of undefined (reading message)")
  | .null => .error (.error "TypeError: cannot read properties of null (reading message)")
  | .error message => .ok (some message)
  | .other => .ok none

/-! ## The outside world -/

/-- How an awaited external call settles. -/
inductive Outcome (α : Type) where
  | returns (value : α)
  | throws (reason : Thrown)

/-- The environment variables the agent reads (`none`: the variable is absent). -/
structure ProcessEnv where
  RPC_URL : Option String
  PRIVATE_KEY : Option String
  CONTRACT_ADDRESS : Option String
  USDC_ADDRESS : Option String
  ELECTRICITYMAPS_TOKEN : Option String

/-- What the outside world answers during one cycle: the HTTP response, the
clock, and the outcome of each of the four blockchain steps.  The receipt of
the bounty transaction is `none` when `tx.wait()` resolves to `null`. -/
structure Answers where
  fetch : Outcome ResponseData
  now : Int
  approve : Outcome Unit
  approveWait : Outcome Unit
  createBounty : Outcome Unit
  bountyWait : Outcome (Option String)

/-- The console lines of the agent, without their decoration. -/
inductive LogLine where
  | agentStarted
  | monitoring
  | contractAddress (address : Option String)
  | checking
  | carbonIntensity (carbon : FieldValue)
  | highCarbon
  | approving
  | creating
  | created
  | txHash (hash : String)
  | view (hash : String)
  | stable
  deriving DecidableEq

/-- One observable action of a cycle, in program order. -/
inductive Event where
  | log (line : LogLine)
  | logError (message : Option String)
  | httpGet (url : String) (authToken : Option String)
  | approve (spender : Option String) (amount : Nat)
  | approveWait
  | createBounty (rewardPerKwh : Nat) (totalBudget : Nat) (deadline : Int)
  | bountyWait
  deriving DecidableEq

/-- How the promise returned by `checkGrid` settles. -/
inductive Settled where
  | fulfilled
  | rejected (reason : Thrown)
  deriving DecidableEq

/-- One run of `checkGrid`: what it did and how it ended. -/
structure Run where
  trace : List Event
  result : Settled
  deriving DecidableEq

/-! ## `checkGrid` -/

/-- Value of a string of decimal digits, most significant first; `none` on an
empty string or a character that is no digit. -/
def digitsValue : List Char → Option Nat
  | [] => none
  | c :: cs =>
    cs.foldl
      (fun acc d => match acc with
        | none => none
        | some n => if d.isDigit then some (10 * n + (d.toNat - 48)) else none)
      (if c.isDigit then some (c.toNat - 48) else none)

/-- Modelled from the spec: `ethers.parseUnits` belongs to the client library,
which is not part of the repository.  A whole number of token units is scaled
to the decimal precision of the token: the digits of `value` times
`10 ^ decimals`; any other string is refused (`none`). -/
def parseUnits (value : String) (decimals : Nat) : Option Nat :=
  (digitsValue value.data).map (fun n => n * 10 ^ decimals)

/-- The expression `Math.floor(Date.now() / 1000) + 1800` of line 30, `nowMs`
being the value of `Date.now()`.  Integer division by a positive number rounds
towards minus infinity, as `Math.floor` does (`deadlineAt_eq_floor`). -/
def deadlineAt (nowMs : Int) : Int :=
  nowMs / 1000 + 1800

/-- The address the GET request of lines 17-20 goes to. -/
def gridUrl : String :=
  "https://api.electricitymap.org/v3/carbon-intensity/latest?zone=US-CAL-CISO"

/-- The error `parseUnits` throws on a string it refuses. -/
def invalidUnits : Thrown :=
  .error "invalid FixedNumber string value"

/-- Lines 26-44: the branch taken when `carbon > 400`.  Returns the events of
the branch and either normal completion or the value thrown. -/
def highCarbonBranch (env : ProcessEnv) (a : Answers) : List Event × Except Thrown Unit :=
  match parseUnits "1" 6, parseUnits "100" 6 with
  | some rewardPerKwh, some totalBudget =>
    let deadline := deadlineAt a.now
    let submitted : List Event :=
      [.log .highCarbon, .log .approving, .approve env.CONTRACT_ADDRESS totalBudget]
    match a.approve with
    | .throws e => (submitted, .error e)
    | .returns _ =>
      match a.approveWait with
      | .throws e => (submitted ++ [.approveWait], .error e)
      | .returns _ =>
        let created : List Event :=
          submitted ++ [.approveWait, .log .creating,
            .createBounty rewardPerKwh totalBudget deadline]
        match a.createBounty with
        | .throws e => (created, .error e)
        | .returns _ =>
          match a.bountyWait with
          | .throws e => (created ++ [.bountyWait], .error e)
          | .returns none =>
            (created ++ [.bountyWait, .log .created],
              .error (.error "TypeError: cannot read properties of null (reading hash)"))
          | .returns (some hash) =>
            (created ++ [.bountyWait, .log .created, .log (.txHash hash), .log (.view hash)],
              .ok ())
  | _, _ => ([.log .highCarbon], .error invalidUnits)

/-- Lines 15-47: the body of the `try` block. -/
def tryBlock (env : ProcessEnv) (a : Answers) : List Event × Except Thrown Unit :=
  let asked : List Event := [.log .checking, .httpGet gridUrl env.ELECTRICITYMAPS_TOKEN]
  match a.fetch with
  | .throws e => (asked, .error e)
  | .returns data =>
    match carbonIntensityOf data with
    | .error e => (asked, .error e)
    | .ok carbon =>
      let measured := asked ++ [.log (.carbonIntensity carbon)]
      if exceedsThreshold carbon then
        let (events, outcome) := highCarbonBranch env a
        (measured ++ events, outcome)
      else
        (measured ++ [.log .stable], .ok ())

/-- Lines 13-51: `checkGrid`.  The `catch` clause evaluates `err.message` and
prints it; when that evaluation itself throws, the promise rejects. -/
def checkGrid (env : ProcessEnv) (a : Answers) : Run :=
  match tryBlock env a with
  | (events, .ok _) => ⟨events, .fulfilled⟩
  | (events, .error err) =>
    match messageOf err with
    | .ok message => ⟨events ++ [.logError message], .fulfilled⟩
    | .error raised => ⟨events, .rejected raised⟩

/-! ## Observations on a run -/

/-- Is the event a call of `usdcContract.approve` or `contract.createBounty`? -/
def Event.isChainCall : Event → Bool
  | .approve _ _ => true
  | .createBounty _ _ _ => true
  | _ => false

/-- The blockchain calls of a trace, in order. -/
def chainCalls (trace : List Event) : List Event :=
  trace.filter Event.isChainCall

/-- The amounts of the `approve` calls of a trace, in order. -/
def approvedAmounts (trace : List Event) : List Nat :=
  trace.filterMap (fun e => match e with
    | .approve _ amount => some amount
    | _ => none)

/-- The `(rewardPerKwh, totalBudget, deadline)` arguments of the `createBounty`
calls of a trace, in order. -/
def bountiesCreated (trace : List Event) : List (Nat × Nat × Int) :=
  trace.filterMap (fun e => match e with
    | .createBounty reward budget deadline => some (reward, budget, deadline)
    | _ => none)

/-- Is the event an external call (HTTP or blockchain, submission or wait)? -/
def Event.isExternalCall : Event → Bool
  | .log _ => false
  | .logError _ => false
  | _ => true

/-- The external calls of a trace, in order. -/
def externalCalls (trace : List Event) : List Event :=
  trace.filter Event.isExternalCall

/-- Did the run print the "Grid stable" line? -/
def tookStableBranch (r : Run) : Bool :=
  r.trace.contains (.log .stable)

/-- Did the approval step (submission and confirmation) succeed? -/
def approvalSucceeds (a : Answers) : Bool :=
  match a.approve, a.approveWait with
  | .returns _, .returns _ => true
  | _, _ => false

/-- Did every external call of the cycle succeed, with a receipt at the end? -/
def allSucceed (a : Answers) : Bool :=
  match a.fetch, a.approve, a.approveWait, a.createBounty, a.bountyWait with
  | .returns _, .returns _, .returns _, .returns _, .returns (some _) => true
  | _, _, _, _, _ => false

/-- The deadlines passed to `createBounty` in a trace, in order. -/
def deadlinesPassed (trace : List Event) : List Int :=
  (bountiesCreated trace).map (fun b => b.2.2)

/-- The value with which the external call behind an event throws, if it does. -/
def throwsAt (a : Answers) : Event → Option Thrown
  | .httpGet _ _ => match a.fetch with
    | .throws e => some e
    | .returns _ => none
  | .approve _ _ => match a.approve with
    | .throws e => some e
    | .returns _ => none
  | .approveWait => match a.approveWait with
    | .throws e => some e
    | .returns _ => none
  | .createBounty _ _ _ => match a.createBounty with
    | .throws e => some e
    | .returns _ => none
  | .bountyWait => match a.bountyWait with
    | .throws e => some e
    | .returns _ => none
  | _ => none

/-- The first external call of a trace that throws: the value it throws and the
events that follow it. -/
def afterFirstThrow (a : Answers) : List Event → Option (Thrown × List Event)
  | [] => none
  | c :: rest =>
    match throwsAt a c with
    | some e => some (e, rest)
    | none => afterFirstThrow a rest

/-- The value an outcome throws, if any. -/
def Outcome.thrown {α : Type} : Outcome α → List Thrown
  | .throws e => [e]
  | .returns _ => []

/-- Every value thrown by one of the five external calls of a cycle. -/
def thrownValues (a : Answers) : List Thrown :=
  a.fetch.thrown ++ a.approve.thrown ++ a.approveWait.thrown ++ a.createBounty.thrown
    ++ a.bountyWait.thrown

/-! ## Start-up and `main` -/

/-- Value of a hexadecimal digit, in either case. -/
def hexDigitValue (c : Char) : Option Nat :=
  if 48 ≤ c.toNat ∧ c.toNat ≤ 57 then some (c.toNat - 48)
  else if 97 ≤ c.toNat ∧ c.toNat ≤ 102 then some (c.toNat - 87)
  else if 65 ≤ c.toNat ∧ c.toNat ≤ 70 then some (c.toNat - 55)
  else none

/-- Value of a string of hexadecimal digits, most significant first; `none` as
soon as a character is no hexadecimal digit. -/
def hexValue (digits : List Char) : Option Nat :=
  digits.foldl
    (fun acc c => match acc, hexDigitValue c with
      | some n, some d => some (16 * n + d)
      | _, _ => none)
    (some 0)

/-- The order of the group of the curve secp256k1: a private key is a number
from 1 to this order minus 1. -/
def curveOrder : Nat :=
  0xFFFFFFFFFFFFFFFFFFFFFFFFFFFFFFFEBAAEDCE6AF48A03BBFD25E8CD0364141

/-- Modelled from the spec: `new ethers.JsonRpcProvider(url)` belongs to the
client library (ethers, version 6), which is not part of the repository; the
spec leaves the check of a value to it.  The constructor does not check the
URL: an absent one stands for the default local endpoint, and nothing is
connected before the first request. -/
def acceptsProviderUrl (_url : Option String) : Bool :=
  true

/-- Modelled from the spec: `new ethers.Wallet(key, provider)` belongs to the
client library (ethers, version 6), which is not part of the repository; the
spec leaves the check of a value to it.  The constructor derives the address
of the key, so it throws unless the key is present and is, after an optional
`0x`, 64 hexadecimal digits that denote a number from 1 to the curve order
minus 1. -/
def acceptsPrivateKey : Option String → Bool
  | none => false
  | some key =>
    let digits := if key.data.take 2 = "0x".data then key.data.drop 2 else key.data
    digits.length == 64 &&
      match hexValue digits with
      | some v => decide (0 < v) && decide (v < curveOrder)
      | none => false

/-- Modelled from the spec: `new ethers.Contract(target, abi, wallet)` belongs
to the client library (ethers, version 6), which is not part of the
repository; the spec leaves the check of a value to it.  The constructor
throws when the target is no string; a string is kept as it is (hexadecimal)
or taken for a name to resolve later, without a check. -/
def acceptsContractTarget (target : Option String) : Bool :=
  target.isSome

/-- The constructor of lines 8-11 that threw while the module was loading. -/
inductive SetupFailure where
  | provider
  | wallet
  | contract
  | usdcContract
  deriving DecidableEq

/-- Lines 8-11: the four clients are constructed in order when the module is
loaded; an exception thrown by a constructor is not caught and ends the
process. -/
def moduleSetup (env : ProcessEnv) : Except SetupFailure Unit :=
  if acceptsProviderUrl env.RPC_URL then
    if acceptsPrivateKey env.PRIVATE_KEY then
      if acceptsContractTarget env.CONTRACT_ADDRESS then
        if acceptsContractTarget env.USDC_ADDRESS then .ok ()
        else .error .usdcContract
      else .error .contract
    else .error .wallet
  else .error .provider

/-- The state of the running process: the banner printed by `main`, the runs of
`checkGrid` started so far (oldest first), the period of the interval timer
while it is armed, and the time on that timer since it was registered.  The
timer is not armed (`none`) before `setInterval` is reached and after the
process has ended. -/
structure Process where
  banner : List Event
  runs : List Run
  timer : Option Nat
  elapsed : Nat

/-- Lines 53-63: `main`.  The k-th invocation of `checkGrid` is answered by
`world k`.  `setInterval` is reached only when the awaited first run fulfils:
when it rejects, the promise of `main()` (line 65) rejects with nobody to
handle it and the process ends. -/
def main (env : ProcessEnv) (world : Nat → Answers) : Process :=
  let banner : List Event :=
    [.log .agentStarted, .log .monitoring, .log (.contractAddress env.CONTRACT_ADDRESS)]
  let first := checkGrid env (world 0)
  match first.result with
  | .fulfilled => { banner := banner, runs := [first], timer := some 60000, elapsed := 0 }
  | .rejected _ => { banner := banner, runs := [first], timer := none, elapsed := 0 }

/-- One firing of the interval timer: the callback `checkGrid` is invoked once.
The timer stays armed when the run fulfils; when its promise rejects, nobody
handles the rejection and the host (Node) ends the process, so that no later
tick fires. -/
def tick (env : ProcessEnv) (world : Nat → Answers) (p : Process) : Option Process :=
  match p.timer with
  | none => none
  | some period =>
    let run := checkGrid env (world p.runs.length)
    some { p with
      runs := p.runs ++ [run]
      timer := match run.result with
        | .fulfilled => some period
        | .rejected _ => none
      elapsed := p.elapsed + period }

/-- The process after `n` firings of the timer, if that many can fire. -/
def ticks (env : ProcessEnv) (world : Nat → Answers) : Nat → Process → Option Process
  | 0, p => some p
  | n + 1, p => (ticks env world n p).bind (tick env world)

/-- The whole program: module set-up, then `main()` of line 65. -/
def program (env : ProcessEnv) (world : Nat → Answers) :
    Except SetupFailure Process :=
  match moduleSetup env with
  | .error failure => .error failure
  | .ok _ => .ok (main env world)

/-- The number of `checkGrid` invocations the program reaches. -/
def invocationsReached : Except SetupFailure Process → Nat
  | .error _ => 0
  | .ok p => p.runs.length

/-! ## Sample inputs -/

/-- A complete, well-formed configuration: the private key is the number 1. -/
def sampleEnv : ProcessEnv :=
  { RPC_URL := some "https://rpc.sepolia.org",
    PRIVATE_KEY :=
      some "0x0000000000000000000000000000000000000000000000000000000000000001",
    CONTRACT_ADDRESS := some "0x00000000000000000000000000000000000000b0",
    USDC_ADDRESS := some "0x00000000000000000000000000000000000000c0",
    ELECTRICITYMAPS_TOKEN := some "token" }

/-- A cycle in which the API reports the reading `r` at clock `t` and every
blockchain step succeeds. -/
def calmAnswers (r : JSNumber) (t : Int) : Answers :=
  { fetch := .returns (.object [("carbonIntensity", .number r)]),
    now := t,
    approve := .returns (), approveWait := .returns (), createBounty := .returns (),
    bountyWait := .returns (some "0xfeed") }

/-- A cycle with the reading 401 in which the token contract refuses the
approval. -/
def approvalRefused : Answers :=
  { calmAnswers (.fin 401) 0 with approve := .throws (.error "execution reverted") }

/-- A cycle in which the HTTP request rejects with `undefined`. -/
def fetchRejectsUndefined : Answers :=
  { calmAnswers (.fin 401) 0 with fetch := .throws .undefined }

/-- A cycle in which the API answers with an object that has no property. -/
def emptyBody : Answers :=
  { calmAnswers .nan 0 with fetch := .returns (.object []) }

/-- The body of a response that reports the reading 400. -/
def bodyAt400 : ResponseData :=
  .object [("carbonIntensity", .number (.fin 400))]

/-- A cycle in which the API answers with the JSON value `null`. -/
def nullBody : Answers :=
  { calmAnswers .nan 0 with fetch := .returns .nullish }

/-- A world in which every cycle sees a reading of 100. -/
def quietWorld : Nat → Answers :=
  fun _ => calmAnswers (.fin 100) 0

/-- A world in which the HTTP request of every cycle rejects with `undefined`. -/
def brokenWorld : Nat → Answers :=
  fun _ => fetchRejectsUndefined

/-- A configuration in which only the RPC endpoint is absent. -/
def envWithoutRpcUrl : ProcessEnv :=
  { sampleEnv with RPC_URL := none }

/-- A configuration in which the address of the bounty contract is malformed. -/
def envWithBadAddress : ProcessEnv :=
  { sampleEnv with CONTRACT_ADDRESS := some "0x1234" }

/-- A configuration in which the private key is too short. -/
def envWithBadKey : ProcessEnv :=
  { sampleEnv with PRIVATE_KEY := some "0x01" }

/-- A configuration in which only the API token is absent. -/
def envWithoutToken : ProcessEnv :=
  { sampleEnv with ELECTRICITYMAPS_TOKEN := none }

/-! ## Auxiliary facts -/

theorem parseUnits_one : parseUnits "1" 6 = some 1000000 := by decide

theorem parseUnits_hundred : parseUnits "100" 6 = some 100000000 := by decide

theorem deadlineAt_eq_floor (t : Int) :
    deadlineAt t = Int.floor ((t : ℚ) / 1000) + 1800 := by
  unfold deadlineAt
  have h : Int.floor ((t : ℚ) / ((1000 : ℕ) : ℚ)) = t / ((1000 : ℕ) : ℤ) :=
    Rat.floor_intCast_div_natCast t 1000
  norm_num at h
  rw [h]

theorem not_exceeds_of_le (r : JSNumber) (h : JSNumber.le r (.fin 400) = true) :
    exceedsThreshold (.number r) = false := by
  cases r with
  | nan => rfl
  | negInf => rfl
  | posInf => simp [JSNumber.le] at h
  | fin q =>
    simp only [JSNumber.le, decide_eq_true_eq] at h
    simp [exceedsThreshold, toNumber, JSNumber.lt, h]

theorem stable_run (env : ProcessEnv) (a : Answers) (data : ResponseData) (c : FieldValue)
    (hf : a.fetch = .returns data) (hc : carbonIntensityOf data = .ok c)
    (hr : exceedsThreshold c = false) :
    checkGrid env a =
      ⟨[.log .checking, .httpGet gridUrl env.ELECTRICITYMAPS_TOKEN, .log (.carbonIntensity c),
        .log .stable], .fulfilled⟩ := by
  simp [checkGrid, tryBlock, hf, hc, hr]

theorem checkGrid_trace (env : ProcessEnv) (a : Answers) :
    (checkGrid env a).trace = (tryBlock env a).1 ∨
      ∃ m, (checkGrid env a).trace = (tryBlock env a).1 ++ [.logError m] := by
  unfold checkGrid
  rcases tryBlock env a with ⟨events, _ | _⟩
  · rename_i err
    cases err <;> simp [messageOf]
  · simp

theorem chainCalls_checkGrid (env : ProcessEnv) (a : Answers) :
    chainCalls (checkGrid env a).trace = chainCalls (tryBlock env a).1 := by
  rcases checkGrid_trace env a with h | ⟨m, h⟩ <;> rw [h]
  simp [chainCalls, Event.isChainCall]

theorem externalCalls_checkGrid (env : ProcessEnv) (a : Answers) :
    externalCalls (checkGrid env a).trace = externalCalls (tryBlock env a).1 := by
  rcases checkGrid_trace env a with h | ⟨m, h⟩ <;> rw [h]
  simp [externalCalls, Event.isExternalCall]

theorem bountiesCreated_checkGrid (env : ProcessEnv) (a : Answers) :
    bountiesCreated (checkGrid env a).trace = bountiesCreated (tryBlock env a).1 := by
  rcases checkGrid_trace env a with h | ⟨m, h⟩ <;> rw [h]
  simp [bountiesCreated]

theorem high_tryBlock (env : ProcessEnv) (a : Answers) (data : ResponseData) (c : FieldValue)
    (hf : a.fetch = .returns data) (hc : carbonIntensityOf data = .ok c)
    (hr : exceedsThreshold c = true) :
    chainCalls (tryBlock env a).1 =
      if approvalSucceeds a then
        [.approve env.CONTRACT_ADDRESS 100000000,
          .createBounty 1000000 100000000 (deadlineAt a.now)]
      else [.approve env.CONTRACT_ADDRESS 100000000] := by
  obtain ⟨fetch, now, approve, approveWait, createBounty, bountyWait⟩ := a
  simp only at hf
  subst hf
  rcases approve with _ | e1 <;> rcases approveWait with _ | e2 <;>
    rcases createBounty with _ | e3 <;> rcases bountyWait with (_ | h) | e4 <;>
    simp [tryBlock, highCarbonBranch, hc, hr, parseUnits_one, parseUnits_hundred,
      approvalSucceeds, chainCalls, Event.isChainCall]

theorem high_bounties (env : ProcessEnv) (a : Answers) (data : ResponseData) (c : FieldValue)
    (hf : a.fetch = .returns data) (hc : carbonIntensityOf data = .ok c)
    (hr : exceedsThreshold c = true) :
    bountiesCreated (tryBlock env a).1 =
      if approvalSucceeds a then [(1000000, 100000000, deadlineAt a.now)] else [] := by
  obtain ⟨fetch, now, approve, approveWait, createBounty, bountyWait⟩ := a
  simp only at hf
  subst hf
  rcases approve with _ | e1 <;> rcases approveWait with _ | e2 <;>
    rcases createBounty with _ | e3 <;> rcases bountyWait with (_ | h) | e4 <;>
    simp [tryBlock, highCarbonBranch, hc, hr, parseUnits_one, parseUnits_hundred,
      approvalSucceeds, bountiesCreated]

/-! ## The threshold -/

/-- Claim C1: for every reading `r <= 400` returned by the HTTP fetch (400
itself included) one run of `checkGrid` takes the stable branch and issues no
`approve` and no `createBounty` call: its list of blockchain calls is empty. -/
theorem checkGrid_reading_at_most_400 (env : ProcessEnv) (a : Answers) (data : ResponseData)
    (r : JSNumber) (hf : a.fetch = .returns data)
    (hc : carbonIntensityOf data = .ok (.number r))
    (hle : JSNumber.le r (.fin 400) = true) :
    tookStableBranch (checkGrid env a) = true ∧
      chainCalls (checkGrid env a).trace = [] ∧
      approvedAmounts (checkGrid env a).trace = [] ∧
      bountiesCreated (checkGrid env a).trace = [] := by
  rw [stable_run env a data _ hf hc (not_exceeds_of_le r hle)]
  simp [tookStableBranch, chainCalls, approvedAmounts, bountiesCreated, Event.isChainCall]

/-- The boundary reading 400 with every call ready to succeed: stable, no call. -/
theorem checkGrid_reading_at_most_400_witness :
    tookStableBranch (checkGrid sampleEnv (calmAnswers (.fin 400) 0)) = true ∧
      chainCalls (checkGrid sampleEnv (calmAnswers (.fin 400) 0)).trace = [] ∧
      approvedAmounts (checkGrid sampleEnv (calmAnswers (.fin 400) 0)).trace = [] ∧
      bountiesCreated (checkGrid sampleEnv (calmAnswers (.fin 400) 0)).trace = [] :=
  checkGrid_reading_at_most_400 sampleEnv (calmAnswers (.fin 400) 0)
    (.object [("carbonIntensity", .number (.fin 400))]) (.fin 400) rfl rfl (by decide)

/-- Claim C2, refuted as stated: with the reading 401 and an `approve` that
throws, the cycle issues the `approve` call and no `createBounty` call. -/
theorem checkGrid_approval_refused :
    JSNumber.lt (.fin 400) (.fin 401) = true ∧
      chainCalls (checkGrid sampleEnv approvalRefused).trace =
        [.approve sampleEnv.CONTRACT_ADDRESS 100000000] ∧
      bountiesCreated (checkGrid sampleEnv approvalRefused).trace = [] := by
  decide

/-- Claim C2, amended: for every reading `r > 400` one run of `checkGrid`
issues exactly one `approve` call; when the approval step succeeds it issues
exactly one `createBounty` call after it, whose `totalBudget` is the amount
approved, and when the approval step throws it issues none. -/
theorem checkGrid_reading_above_400 (env : ProcessEnv) (a : Answers) (data : ResponseData)
    (r : JSNumber) (hf : a.fetch = .returns data)
    (hc : carbonIntensityOf data = .ok (.number r))
    (hgt : JSNumber.lt (.fin 400) r = true) :
    chainCalls (checkGrid env a).trace =
      if approvalSucceeds a then
        [.approve env.CONTRACT_ADDRESS 100000000,
          .createBounty 1000000 100000000 (deadlineAt a.now)]
      else [.approve env.CONTRACT_ADDRESS 100000000] := by
  rw [chainCalls_checkGrid]
  exact high_tryBlock env a data _ hf hc hgt

/-- The reading 401 with a refused approval: one `approve`, nothing else. -/
theorem checkGrid_reading_above_400_witness :
    chainCalls (checkGrid sampleEnv approvalRefused).trace =
      if approvalSucceeds approvalRefused then
        [.approve sampleEnv.CONTRACT_ADDRESS 100000000,
          .createBounty 1000000 100000000 (deadlineAt approvalRefused.now)]
      else [.approve sampleEnv.CONTRACT_ADDRESS 100000000] :=
  checkGrid_reading_above_400 sampleEnv approvalRefused
    (.object [("carbonIntensity", .number (.fin 401))]) (.fin 401) rfl rfl (by decide)

/-! ## Amounts and deadline -/

/-- Claim C3: for a reading of 401 and every external call succeeding, one run
of `checkGrid` issues one `approve` with amount 100000000 (the value of
`parseUnits("100", 6)`, 100 * 10^6) followed by one `createBounty` whose
reward is 1000000 (the value of `parseUnits("1", 6)`, 1 * 10^6) and whose
total budget is the same 100000000; the run ends without an error. -/
theorem checkGrid_reading_401 (env : ProcessEnv) (a : Answers) (data : ResponseData)
    (hf : a.fetch = .returns data)
    (hc : carbonIntensityOf data = .ok (.number (.fin 401)))
    (hall : allSucceed a = true) :
    chainCalls (checkGrid env a).trace =
        [.approve env.CONTRACT_ADDRESS 100000000,
          .createBounty 1000000 100000000 (deadlineAt a.now)] ∧
      approvedAmounts (checkGrid env a).trace = [100 * 10 ^ 6] ∧
      parseUnits "100" 6 = some (100 * 10 ^ 6) ∧
      parseUnits "1" 6 = some (1 * 10 ^ 6) ∧
      (checkGrid env a).result = .fulfilled ∧
      (∀ m, Event.logError m ∉ (checkGrid env a).trace) := by
  have hr : exceedsThreshold (.number (.fin 401)) = true := by decide
  obtain ⟨fetch, now, approve, approveWait, createBounty, bountyWait⟩ := a
  simp only at hf
  subst hf
  rcases approve with _ | e1 <;> rcases approveWait with _ | e2 <;>
    rcases createBounty with _ | e3 <;> rcases bountyWait with (_ | h) | e4 <;>
    simp [allSucceed] at hall
  simp [checkGrid, tryBlock, highCarbonBranch, hc, hr, parseUnits_one, parseUnits_hundred,
    chainCalls, approvedAmounts, Event.isChainCall]

/-- The reading 401 at clock 0 with every step succeeding. -/
theorem checkGrid_reading_401_witness :
    chainCalls (checkGrid sampleEnv (calmAnswers (.fin 401) 0)).trace =
        [.approve sampleEnv.CONTRACT_ADDRESS 100000000,
          .createBounty 1000000 100000000 (deadlineAt (calmAnswers (.fin 401) 0).now)] ∧
      approvedAmounts (checkGrid sampleEnv (calmAnswers (.fin 401) 0)).trace = [100 * 10 ^ 6] ∧
      parseUnits "100" 6 = some (100 * 10 ^ 6) ∧
      parseUnits "1" 6 = some (1 * 10 ^ 6) ∧
      (checkGrid sampleEnv (calmAnswers (.fin 401) 0)).result = .fulfilled ∧
      (∀ m, Event.logError m ∉ (checkGrid sampleEnv (calmAnswers (.fin 401) 0)).trace) :=
  checkGrid_reading_401 sampleEnv (calmAnswers (.fin 401) 0)
    (.object [("carbonIntensity", .number (.fin 401))]) rfl rfl (by decide)

/-- Claim C4: for every reading `r > 400` and every clock value `t` read by
`Date.now()`, the deadline passed to `createBounty` is `floor(t / 1000) + 1800`
(it is passed once when the approval step succeeds), and it does not depend on
the reading: a run with the same clock and outcomes and another reading above
400 passes the same deadline. -/
theorem createBounty_deadline (env : ProcessEnv) (a : Answers) (data data2 : ResponseData)
    (r r2 : JSNumber) (hf : a.fetch = .returns data)
    (hc : carbonIntensityOf data = .ok (.number r))
    (hgt : JSNumber.lt (.fin 400) r = true)
    (hc2 : carbonIntensityOf data2 = .ok (.number r2))
    (hgt2 : JSNumber.lt (.fin 400) r2 = true) :
    deadlinesPassed (checkGrid env a).trace =
        (if approvalSucceeds a then [Int.floor ((a.now : ℚ) / 1000) + 1800] else []) ∧
      deadlinesPassed (checkGrid env { a with fetch := .returns data2 }).trace =
        deadlinesPassed (checkGrid env a).trace := by
  have h1 := high_bounties env a data _ hf hc hgt
  have h2 := high_bounties env { a with fetch := .returns data2 } data2 _ rfl hc2 hgt2
  have hs : approvalSucceeds { a with fetch := .returns data2 } = approvalSucceeds a := rfl
  unfold deadlinesPassed
  rw [bountiesCreated_checkGrid, bountiesCreated_checkGrid, h1, h2, hs,
    ← deadlineAt_eq_floor]
  constructor
  · split <;> rfl
  · rfl

/-- Clock 1700000000999 ms, readings 401 and 9000: both runs pass the deadline
1700000000 + 1800. -/
theorem createBounty_deadline_witness :
    deadlinesPassed (checkGrid sampleEnv (calmAnswers (.fin 401) 1700000000999)).trace =
        (if approvalSucceeds (calmAnswers (.fin 401) 1700000000999) then
          [Int.floor ((((calmAnswers (.fin 401) 1700000000999).now : Int) : ℚ) / 1000) + 1800]
        else []) ∧
      deadlinesPassed (checkGrid sampleEnv
          { calmAnswers (.fin 401) 1700000000999 with
            fetch := .returns (.object [("carbonIntensity", .number (.fin 9000))]) }).trace =
        deadlinesPassed (checkGrid sampleEnv (calmAnswers (.fin 401) 1700000000999)).trace :=
  createBounty_deadline sampleEnv (calmAnswers (.fin 401) 1700000000999)
    (.object [("carbonIntensity", .number (.fin 401))])
    (.object [("carbonIntensity", .number (.fin 9000))]) (.fin 401) (.fin 9000)
    rfl rfl (by decide) rfl (by decide)

/-! ## Failures inside a cycle -/

/-- Claim C5: when the HTTP fetch throws, whatever it throws, the cycle issues
no blockchain call: the request is its only external call. -/
theorem checkGrid_fetch_throws (env : ProcessEnv) (a : Answers) (e : Thrown)
    (hf : a.fetch = .throws e) :
    chainCalls (checkGrid env a).trace = [] ∧
      externalCalls (checkGrid env a).trace = [.httpGet gridUrl env.ELECTRICITYMAPS_TOKEN] := by
  rw [chainCalls_checkGrid, externalCalls_checkGrid]
  simp [tryBlock, hf, chainCalls, externalCalls, Event.isChainCall, Event.isExternalCall]

/-- A fetch that rejects with `undefined`: no blockchain call. -/
theorem checkGrid_fetch_throws_witness :
    chainCalls (checkGrid sampleEnv fetchRejectsUndefined).trace = [] ∧
      externalCalls (checkGrid sampleEnv fetchRejectsUndefined).trace =
        [.httpGet gridUrl sampleEnv.ELECTRICITYMAPS_TOKEN] :=
  checkGrid_fetch_throws sampleEnv fetchRejectsUndefined .undefined rfl

/-- Claim C6: with a reading above 400, when the approval step throws, either
when `approve` is submitted or when `approveTx.wait()` is awaited, the cycle
issues no `createBounty` call (the `approve` call is its only blockchain
call). -/
theorem checkGrid_approval_throws (env : ProcessEnv) (a : Answers) (data : ResponseData)
    (r : JSNumber) (hf : a.fetch = .returns data)
    (hc : carbonIntensityOf data = .ok (.number r))
    (hgt : JSNumber.lt (.fin 400) r = true)
    (hthrow : (∃ e, a.approve = .throws e) ∨ (∃ e, a.approveWait = .throws e)) :
    bountiesCreated (checkGrid env a).trace = [] ∧
      chainCalls (checkGrid env a).trace = [.approve env.CONTRACT_ADDRESS 100000000] := by
  have hs : approvalSucceeds a = false := by
    unfold approvalSucceeds
    rcases hthrow with ⟨e, h⟩ | ⟨e, h⟩
    · rw [h]
    · rw [h]
      cases a.approve <;> rfl
  rw [bountiesCreated_checkGrid, chainCalls_checkGrid, high_bounties env a data _ hf hc hgt,
    high_tryBlock env a data _ hf hc hgt, hs]
  simp

/-- The reading 401 with a confirmation of the approval that throws. -/
theorem checkGrid_approval_throws_witness :
    bountiesCreated (checkGrid sampleEnv
        { calmAnswers (.fin 401) 0 with approveWait := .throws (.error "timeout") }).trace = [] ∧
      chainCalls (checkGrid sampleEnv
        { calmAnswers (.fin 401) 0 with approveWait := .throws (.error "timeout") }).trace =
        [.approve sampleEnv.CONTRACT_ADDRESS 100000000] :=
  checkGrid_approval_throws sampleEnv
    { calmAnswers (.fin 401) 0 with approveWait := .throws (.error "timeout") }
    (.object [("carbonIntensity", .number (.fin 401))]) (.fin 401) rfl rfl (by decide)
    (Or.inr ⟨.error "timeout", rfl⟩)

/-- Claim C7, refuted as stated: when the HTTP fetch rejects with `undefined`,
the `catch` clause throws a TypeError while reading `err.message`; nothing is
logged and the promise of `checkGrid` rejects. -/
theorem checkGrid_rejects_on_undefined :
    (checkGrid sampleEnv fetchRejectsUndefined).result =
        .rejected
          (.error "TypeError: cannot read properties of undefined (reading message)") ∧
      (checkGrid sampleEnv fetchRejectsUndefined).trace =
        [.log .checking, .httpGet gridUrl (some "token")] := by
  decide

/-- Claim C7, amended: for every outcome of the external calls of one cycle in
which no call throws `undefined` or `null`, the promise of `checkGrid`
fulfils, and when a call throws, the only thing that follows it is the error
line with the message of the thrown value: no further external call. -/
theorem checkGrid_swallows_errors (env : ProcessEnv) (a : Answers)
    (h : ∀ e ∈ thrownValues a, e ≠ .undefined ∧ e ≠ .null) :
    (checkGrid env a).result = .fulfilled ∧
      ∀ e rest, afterFirstThrow a (checkGrid env a).trace = some (e, rest) →
        ∃ m, messageOf e = .ok m ∧ rest = [.logError m] := by
  obtain ⟨fetch, now, approve, approveWait, createBounty, bountyWait⟩ := a
  rcases fetch with data | e0
  · rcases hd : carbonIntensityOf data with err | carbon
    · cases data with
      | nullish =>
        simp only [carbonIntensityOf, Except.error.injEq] at hd
        subst hd
        simp [checkGrid, tryBlock, carbonIntensityOf, messageOf, afterFirstThrow, throwsAt]
      | object fields => simp [carbonIntensityOf] at hd
    · cases hr : exceedsThreshold carbon
      · simp [checkGrid, tryBlock, hd, hr, afterFirstThrow, throwsAt]
      · simp only [thrownValues, Outcome.thrown, List.mem_append] at h
        rcases approve with _ | e1
        · rcases approveWait with _ | e2
          · rcases createBounty with _ | e3
            · rcases bountyWait with (_ | hash) | e4
              · simp [checkGrid, tryBlock, highCarbonBranch, hd, hr, parseUnits_one,
                  parseUnits_hundred, messageOf, afterFirstThrow, throwsAt]
              · simp [checkGrid, tryBlock, highCarbonBranch, hd, hr, parseUnits_one,
                  parseUnits_hundred, messageOf, afterFirstThrow, throwsAt]
              · have h4 := h e4 (by simp)
                cases e4 <;>
                  simp_all [checkGrid, tryBlock, highCarbonBranch, parseUnits_one,
                    parseUnits_hundred, messageOf, afterFirstThrow, throwsAt]
            · have h3 := h e3 (by simp)
              cases e3 <;>
                simp_all [checkGrid, tryBlock, highCarbonBranch, parseUnits_one,
                  parseUnits_hundred, messageOf, afterFirstThrow, throwsAt]
          · have h2 := h e2 (by simp)
            cases e2 <;>
              simp_all [checkGrid, tryBlock, highCarbonBranch, parseUnits_one,
                parseUnits_hundred, messageOf, afterFirstThrow, throwsAt]
        · have h1 := h e1 (by simp)
          cases e1 <;>
            simp_all [checkGrid, tryBlock, highCarbonBranch, parseUnits_one,
              parseUnits_hundred, messageOf, afterFirstThrow, throwsAt]
  · have h0 := h e0 (by simp [thrownValues, Outcome.thrown])
    cases e0 <;>
      simp_all [checkGrid, tryBlock, messageOf, afterFirstThrow, throwsAt]

/-- A refused approval is caught: the run fulfils and the error line with the
message is the only event after the `approve` call. -/
theorem checkGrid_swallows_errors_witness :
    ((checkGrid sampleEnv approvalRefused).result = .fulfilled ∧
      ∀ e rest,
        afterFirstThrow approvalRefused (checkGrid sampleEnv approvalRefused).trace
            = some (e, rest) →
          ∃ m, messageOf e = .ok m ∧ rest = [.logError m]) ∧
      afterFirstThrow approvalRefused (checkGrid sampleEnv approvalRefused).trace =
        some (.error "execution reverted", [.logError (some "execution reverted")]) :=
  ⟨checkGrid_swallows_errors sampleEnv approvalRefused (by decide), by decide⟩

/-! ## Scheduling -/

theorem main_start (env : ProcessEnv) (world : Nat → Answers) :
    (main env world).runs = [checkGrid env (world 0)] ∧ (main env world).elapsed = 0 ∧
      (main env world).timer =
        if (checkGrid env (world 0)).result = .fulfilled then some 60000 else none := by
  rcases h : (checkGrid env (world 0)).result with _ | reason <;> simp [main, h]

theorem tick_armed (env : ProcessEnv) (world : Nat → Answers) (q : Process)
    (ht : q.timer = some 60000) :
    ∃ p, tick env world q = some p ∧
      p.runs = q.runs ++ [checkGrid env (world q.runs.length)] ∧
      p.elapsed = q.elapsed + 60000 ∧
      p.timer =
        if (checkGrid env (world q.runs.length)).result = .fulfilled then some 60000
        else none := by
  rcases h : (checkGrid env (world q.runs.length)).result with _ | reason <;>
    simp [tick, ht, h]

theorem ticks_invariant (env : ProcessEnv) (world : Nat → Answers) (n : Nat) (p : Process)
    (hp : ticks env world n (main env world) = some p) :
    p.runs = (List.range (n + 1)).map (fun k => checkGrid env (world k)) ∧
      p.elapsed = n * 60000 ∧
      (∀ k, k < n → (checkGrid env (world k)).result = .fulfilled) ∧
      p.timer = if (checkGrid env (world n)).result = .fulfilled then some 60000 else none := by
  induction n generalizing p with
  | zero =>
    simp only [ticks, Option.some.injEq] at hp
    subst hp
    obtain ⟨h1, h2, h3⟩ := main_start env world
    exact ⟨by simp [h1, List.range_succ], by simp [h2], by simp, h3⟩
  | succ n ih =>
    simp only [ticks] at hp
    rcases hq : ticks env world n (main env world) with _ | q
    · simp [hq] at hp
    · obtain ⟨hruns, helapsed, hbefore, htimer⟩ := ih q hq
      rw [hq] at hp
      simp only [Option.some_bind] at hp
      by_cases hn : (checkGrid env (world n)).result = .fulfilled
      · rw [if_pos hn] at htimer
        obtain ⟨p2, hp2, hr2, he2, ht2⟩ := tick_armed env world q htimer
        rw [hp2, Option.some.injEq] at hp
        subst hp
        have hlen : q.runs.length = n + 1 := by simp [hruns]
        rw [hlen] at hr2 ht2
        refine ⟨?_, ?_, ?_, ht2⟩
        · rw [hr2, List.range_succ (n + 1), List.map_append, ← hruns]
          rfl
        · rw [he2, helapsed]
          ring
        · intro k hk
          rcases Nat.lt_succ_iff_lt_or_eq.mp hk with h | h
          · exact hbefore k h
          · rw [h]
            exact hn
      · rw [if_neg hn] at htimer
        simp [tick, htimer] at hp

theorem ticks_defined (env : ProcessEnv) (world : Nat → Answers) (n : Nat)
    (hall : ∀ k, k < n → (checkGrid env (world k)).result = .fulfilled) :
    ∃ p, ticks env world n (main env world) = some p := by
  induction n with
  | zero => exact ⟨main env world, rfl⟩
  | succ n ih =>
    obtain ⟨q, hq⟩ := ih (fun k hk => hall k (Nat.lt_succ_of_lt hk))
    obtain ⟨_, _, _, htimer⟩ := ticks_invariant env world n q hq
    rw [if_pos (hall n (Nat.lt_succ_self n))] at htimer
    obtain ⟨p, hp, _⟩ := tick_armed env world q htimer
    exact ⟨p, by simp only [ticks, hq, Option.some_bind, hp]⟩

/-- Claim C8, refuted as stated: when the HTTP request of the first run rejects
with `undefined`, the promise of `checkGrid` rejects, `main` never reaches
`setInterval`, and no tick fires: `checkGrid` is invoked once and never
again. -/
theorem main_never_arms_timer :
    (main sampleEnv brokenWorld).runs.length = 1 ∧
      (main sampleEnv brokenWorld).timer = none ∧
      ticks sampleEnv brokenWorld 1 (main sampleEnv brokenWorld) = none :=
  ⟨by decide, by decide, rfl⟩

/-- Claim C8, amended: `main` invokes `checkGrid` exactly once before the first
timer interval elapses; the `n`-th tick of the 60000 ms timer fires exactly
when the promises of the runs before it (invocations 0 to `n - 1`) all
fulfilled, and after `n` ticks have fired `n * 60000` ms are on the timer and
`checkGrid` has been invoked exactly `n + 1` times (invocations 0 to `n`, in
order), with no upper bound on `n`. -/
theorem main_invokes_checkGrid (env : ProcessEnv) (world : Nat → Answers) (n : Nat) :
    ((∃ p, ticks env world n (main env world) = some p) ↔
        ∀ k, k < n → (checkGrid env (world k)).result = .fulfilled) ∧
      (∀ p, ticks env world n (main env world) = some p →
        p.runs.length = n + 1 ∧
          p.runs = (List.range (n + 1)).map (fun k => checkGrid env (world k)) ∧
          p.elapsed = n * 60000) := by
  refine ⟨⟨fun ⟨p, hp⟩ => (ticks_invariant env world n p hp).2.2.1,
    ticks_defined env world n⟩, fun p hp => ?_⟩
  obtain ⟨hruns, helapsed, _⟩ := ticks_invariant env world n p hp
  exact ⟨by simp [hruns], hruns, helapsed⟩

/-- Three ticks in a world of quiet readings: four invocations, 180000 ms. -/
theorem main_invokes_checkGrid_witness :
    ∃ p, ticks sampleEnv quietWorld 3 (main sampleEnv quietWorld) = some p ∧
      p.runs.length = 4 ∧ p.elapsed = 180000 := by
  obtain ⟨p, hp⟩ :=
    (main_invokes_checkGrid sampleEnv quietWorld 3).1.mpr (fun _ _ => by
      show (checkGrid sampleEnv (calmAnswers (.fin 100) 0)).result = .fulfilled
      decide)
  obtain ⟨hlen, _, helapsed⟩ := (main_invokes_checkGrid sampleEnv quietWorld 3).2 p hp
  exact ⟨p, hp, hlen, helapsed⟩

/-! ## Start-up -/

theorem tryBlock_begins (env : ProcessEnv) (a : Answers) :
    ∃ rest, (tryBlock env a).1 =
      .log .checking :: .httpGet gridUrl env.ELECTRICITYMAPS_TOKEN :: rest := by
  rcases hf : a.fetch with data | e
  · rcases hd : carbonIntensityOf data with err | c
    · exact ⟨[], by simp [tryBlock, hf, hd]⟩
    · cases h : exceedsThreshold c <;> simp [tryBlock, hf, hd, h]
  · exact ⟨[], by simp [tryBlock, hf]⟩

theorem checkGrid_begins (env : ProcessEnv) (a : Answers) :
    ∃ rest, (checkGrid env a).trace =
      .log .checking :: .httpGet gridUrl env.ELECTRICITYMAPS_TOKEN :: rest := by
  obtain ⟨rest, hrest⟩ := tryBlock_begins env a
  rcases checkGrid_trace env a with h | ⟨m, h⟩
  · exact ⟨rest, by rw [h, hrest]⟩
  · exact ⟨rest ++ [.logError m], by rw [h, hrest]; rfl⟩

/-- Claim C9, refuted as stated: with `ELECTRICITYMAPS_TOKEN` absent and the
other four values well formed, set-up succeeds and the process reaches the
first `checkGrid` call, whose HTTP request carries an undefined `auth-token`;
the process also reaches it with `RPC_URL` absent and with a malformed
`CONTRACT_ADDRESS`. -/
theorem program_runs_without_token :
    envWithoutToken.ELECTRICITYMAPS_TOKEN = none ∧
      moduleSetup envWithoutToken = .ok () ∧
      invocationsReached (program envWithoutToken quietWorld) = 1 ∧
      (main envWithoutToken quietWorld).runs.map Run.trace =
        [[.log .checking, .httpGet gridUrl none,
          .log (.carbonIntensity (.number (.fin 100))), .log .stable]] ∧
      envWithoutRpcUrl.RPC_URL = none ∧
      invocationsReached (program envWithoutRpcUrl quietWorld) = 1 ∧
      invocationsReached (program envWithBadAddress quietWorld) = 1 :=
  ⟨rfl, rfl, by decide, by decide, rfl, by decide, by decide⟩

/-- Claim C9, amended: the process fails fatally, before any cycle runs,
whenever `PRIVATE_KEY` is absent or malformed or one of `CONTRACT_ADDRESS`,
`USDC_ADDRESS` is absent.  Nothing else is checked while the clients are
constructed: with a well-formed key and both addresses present, whatever
`RPC_URL` and `ELECTRICITYMAPS_TOKEN` are (absent included), the process
reaches the first `checkGrid` call, whose HTTP request carries the token as it
is, undefined when absent. -/
theorem program_startup (env : ProcessEnv) (world : Nat → Answers) :
    (env.PRIVATE_KEY = none ∨ acceptsPrivateKey env.PRIVATE_KEY = false ∨
        env.CONTRACT_ADDRESS = none ∨ env.USDC_ADDRESS = none →
      (∃ failure, program env world = .error failure) ∧
        invocationsReached (program env world) = 0) ∧
      (acceptsPrivateKey env.PRIVATE_KEY = true → env.CONTRACT_ADDRESS ≠ none →
        env.USDC_ADDRESS ≠ none →
        program env world = .ok (main env world) ∧
          invocationsReached (program env world) = 1 ∧
          ∃ rest, (main env world).runs.map Run.trace =
            [.log .checking :: .httpGet gridUrl env.ELECTRICITYMAPS_TOKEN :: rest]) := by
  obtain ⟨rpc, key, contract, usdc, token⟩ := env
  constructor
  · intro h
    have hkey : key = none → acceptsPrivateKey key = false := fun hk => by rw [hk]; rfl
    simp only at h
    cases hk : acceptsPrivateKey key
    · simp [program, moduleSetup, acceptsProviderUrl, hk, invocationsReached]
    · rcases h with h | h | h | h
      · rw [hkey h] at hk
        cases hk
      · rw [h] at hk
        cases hk
      · subst h
        simp [program, moduleSetup, acceptsProviderUrl, acceptsContractTarget, hk,
          invocationsReached]
      · subst h
        cases contract <;>
          simp [program, moduleSetup, acceptsProviderUrl, acceptsContractTarget, hk,
            invocationsReached]
  · intro hk hc hu
    simp only at hk hc hu
    obtain ⟨c, rfl⟩ := Option.ne_none_iff_exists'.mp hc
    obtain ⟨u, rfl⟩ := Option.ne_none_iff_exists'.mp hu
    obtain ⟨rest, hrest⟩ := checkGrid_begins ⟨rpc, key, some c, some u, token⟩ (world 0)
    have hruns := (main_start ⟨rpc, key, some c, some u, token⟩ world).1
    refine ⟨?_, ?_, rest, ?_⟩
    · simp [program, moduleSetup, acceptsProviderUrl, acceptsContractTarget, hk]
    · simp [program, moduleSetup, acceptsProviderUrl, acceptsContractTarget, hk,
        invocationsReached, hruns]
    · rw [hruns, List.map_singleton, hrest]

/-- A key that is too short stops the process before any cycle; an absent
token with the other values well formed does not. -/
theorem program_startup_witness :
    ((∃ failure, program envWithBadKey quietWorld = .error failure) ∧
        invocationsReached (program envWithBadKey quietWorld) = 0) ∧
      (program envWithoutToken quietWorld = .ok (main envWithoutToken quietWorld) ∧
        invocationsReached (program envWithoutToken quietWorld) = 1 ∧
        ∃ rest, (main envWithoutToken quietWorld).runs.map Run.trace =
          [.log .checking :: .httpGet gridUrl envWithoutToken.ELECTRICITYMAPS_TOKEN :: rest]) :=
  ⟨(program_startup envWithBadKey quietWorld).1 (Or.inr (Or.inl (by decide))),
    (program_startup envWithoutToken quietWorld).2 (by decide) (by decide) (by decide)⟩

/-! ## A body without a reading -/

/-- Claim C10, refuted as stated: a successful response whose body is the JSON
value `null` has no `carbonIntensity`, yet the read of line 22 throws; the
error is caught and logged and the stable line is not printed. -/
theorem checkGrid_null_body :
    checkGrid sampleEnv nullBody =
        ⟨[.log .checking, .httpGet gridUrl (some "token"),
          .logError
            (some "TypeError: cannot read properties of null (reading carbonIntensity)")],
          .fulfilled⟩ ∧
      tookStableBranch (checkGrid sampleEnv nullBody) = false := by
  decide

/-- Claim C10, amended: for every successful response whose body is not itself
`null` or `undefined` and whose `carbonIntensity` is missing, `undefined`,
`null` or NaN, `checkGrid` raises no error and takes the stable branch: the
test `carbon > 400` is false, no `approve` and no `createBounty` call is
issued, and the run has the external calls and the outcome of a run with the
reading 400.  When the body itself is `null` or `undefined`, the read of the
property throws, the error is logged and the run ends without a blockchain
call and without the stable line. -/
theorem checkGrid_without_reading (env : ProcessEnv) (a : Answers)
    (fields : List (String × FieldValue)) (c : FieldValue)
    (hf : a.fetch = .returns (.object fields))
    (hc : (fields.lookup "carbonIntensity").getD .undefined = c)
    (hn : c = .undefined ∨ c = .null ∨ c = .number .nan) :
    (exceedsThreshold c = false ∧
      checkGrid env a =
        ⟨[.log .checking, .httpGet gridUrl env.ELECTRICITYMAPS_TOKEN,
          .log (.carbonIntensity c), .log .stable], .fulfilled⟩ ∧
      chainCalls (checkGrid env a).trace = [] ∧
      externalCalls (checkGrid env a).trace =
        externalCalls (checkGrid env
          { a with fetch := .returns bodyAt400 }).trace ∧
      (checkGrid env a).result =
        (checkGrid env
          { a with fetch := .returns bodyAt400 }).result) ∧
      (checkGrid env { a with fetch := .returns .nullish } =
          ⟨[.log .checking, .httpGet gridUrl env.ELECTRICITYMAPS_TOKEN,
            .logError
              (some "TypeError: cannot read properties of null (reading carbonIntensity)")],
            .fulfilled⟩ ∧
        chainCalls (checkGrid env { a with fetch := .returns .nullish }).trace = [] ∧
        tookStableBranch (checkGrid env { a with fetch := .returns .nullish }) = false) := by
  have hr : exceedsThreshold c = false := by
    rcases hn with h | h | h <;> rw [h] <;> decide
  have hc2 : carbonIntensityOf (.object fields) = .ok c := by
    simp [carbonIntensityOf, hc]
  have h400 := stable_run env
    { a with fetch := .returns bodyAt400 } bodyAt400 (.number (.fin 400)) rfl rfl
    (by decide)
  have hnull : checkGrid env { a with fetch := .returns .nullish } =
      ⟨[.log .checking, .httpGet gridUrl env.ELECTRICITYMAPS_TOKEN,
        .logError
          (some "TypeError: cannot read properties of null (reading carbonIntensity)")],
        .fulfilled⟩ := by
    simp [checkGrid, tryBlock, carbonIntensityOf, messageOf]
  refine ⟨?_, hnull, ?_, ?_⟩
  · rw [h400, stable_run env a (.object fields) c hf hc2 hr]
    simp [hr, chainCalls, externalCalls, Event.isChainCall, Event.isExternalCall]
  · rw [hnull]
    simp [chainCalls, Event.isChainCall]
  · rw [hnull]
    simp [tookStableBranch]

/-- A body with no `carbonIntensity` property at all. -/
theorem checkGrid_without_reading_witness :
    (exceedsThreshold .undefined = false ∧
      checkGrid sampleEnv emptyBody =
        ⟨[.log .checking, .httpGet gridUrl sampleEnv.ELECTRICITYMAPS_TOKEN,
          .log (.carbonIntensity .undefined), .log .stable], .fulfilled⟩ ∧
      chainCalls (checkGrid sampleEnv emptyBody).trace = [] ∧
      externalCalls (checkGrid sampleEnv emptyBody).trace =
        externalCalls (checkGrid sampleEnv
          { emptyBody with fetch := .returns bodyAt400 }).trace ∧
      (checkGrid sampleEnv emptyBody).result =
        (checkGrid sampleEnv
          { emptyBody with fetch := .returns bodyAt400 }).result) ∧
      (checkGrid sampleEnv { emptyBody with fetch := .returns .nullish } =
          ⟨[.log .checking, .httpGet gridUrl sampleEnv.ELECTRICITYMAPS_TOKEN,
            .logError
              (some "TypeError: cannot read properties of null (reading carbonIntensity)")],
            .fulfilled⟩ ∧
        chainCalls (checkGrid sampleEnv { emptyBody with fetch := .returns .nullish }).trace
          = [] ∧
        tookStableBranch (checkGrid sampleEnv { emptyBody with fetch := .returns .nullish })
          = false) :=
  checkGrid_without_reading sampleEnv emptyBody [] .undefined rfl rfl (Or.inl rfl)

end AuraAgent
